import Mathlib

/-!
Verification of the james_webb_live particle-simulation core.

The development shallowly embeds the TypeScript/GLSL source in Lean:
JavaScript numbers are modelled as rationals, and the library calls
Math.sqrt, Math.sin, Math.cos, Math.atan2 and the constant Math.PI are
abstracted into a MathOracle record that each theorem either quantifies
over or instantiates concretely.  Every definition is transcribed from
the repository source; file and line references are given next to each
definition.
-/

set_option autoImplicit false

namespace JamesWebbLive

/-! ### Vectors over the rationals -/

/-- A 3-component vector, as used for positions, velocities and forces. -/
structure Vec3 where
  x : ℚ
  y : ℚ
  z : ℚ
deriving DecidableEq

/-- A 4-component vector: one RGBA texel of a float texture. -/
structure Vec4 where
  x : ℚ
  y : ℚ
  z : ℚ
  w : ℚ
deriving DecidableEq

def Vec3.zero : Vec3 := ⟨0, 0, 0⟩

def Vec3.add (a b : Vec3) : Vec3 := ⟨a.x + b.x, a.y + b.y, a.z + b.z⟩

def Vec3.sub (a b : Vec3) : Vec3 := ⟨a.x - b.x, a.y - b.y, a.z - b.z⟩

def Vec3.smul (q : ℚ) (v : Vec3) : Vec3 := ⟨q * v.x, q * v.y, q * v.z⟩

def Vec3.dot (a b : Vec3) : ℚ := a.x * b.x + a.y * b.y + a.z * b.z

/-- GLSL cross product. -/
def Vec3.cross (a b : Vec3) : Vec3 :=
  ⟨a.y * b.z - a.z * b.y, a.z * b.x - a.x * b.z, a.x * b.y - a.y * b.x⟩

/-- The xyz components of a texel. -/
def Vec4.xyz (v : Vec4) : Vec3 := ⟨v.x, v.y, v.z⟩

/-- Abstraction of the JavaScript / GLSL math library.  The field sqrt
stands for Math.sqrt and the GLSL sqrt and length built-ins, sin / cos /
atan2 for the trigonometric calls, and pi for the float constant
Math.PI.  Theorems state only the hypotheses on these functions that the
verified property needs (for example that sqrt is exact on the perfect
squares actually reached). -/
structure MathOracle where
  sqrt : ℚ → ℚ
  sin : ℚ → ℚ
  cos : ℚ → ℚ
  atan2 : ℚ → ℚ → ℚ
  pi : ℚ

/-! ### C1 — GPU mass packing

Encoder: LandingPage.tsx, GPUParticleSystem.initializeTextures writes
positionData[i4 + 3] = particle.type === star ? 1.0 + (particle.mass / 1000) : 0.0.
Decoder: galaxyShaders computeShader, loadParticle reads
p.isStar = posData.w > 0.5 and
p.mass = p.isStar ? (posData.w - 1.0) * 1000.0 : 0.1. -/

/-- The alpha-channel discriminant written by the encoder
(LandingPage.tsx line 138). -/
def packDiscriminant (isStar : Bool) (mass : ℚ) : ℚ :=
  if isStar then 1 + mass / 1000 else 0

/-- The star/ambient classification read back by the compute shader
(loadParticle, posData.w > 0.5). -/
def loadIsStar (w : ℚ) : Bool := decide ((1 : ℚ) / 2 < w)

/-- The mass read back by the compute shader (loadParticle).  For a
non-star texel the shader substitutes the sentinel mass 0.1. -/
def loadMass (w : ℚ) : ℚ := if loadIsStar w then (w - 1) * 1000 else 1 / 10

/-- C1: packing a star of mass m as 1.0 + m/1000 and decoding with
(alpha - 1.0) * 1000 recovers m exactly (exact over the rationals, hence
within floating-point tolerance on the reals), and the star is
classified as a star; an ambient particle is encoded as alpha 0.0, which
decodes to the non-star classification with the fixed non-star sentinel
mass 0.1. -/
theorem mass_packing_round_trip (m : ℚ) (hm : 0 ≤ m) :
    (loadIsStar (packDiscriminant true m) = true ∧
      loadMass (packDiscriminant true m) = m) ∧
    (packDiscriminant false m = 0 ∧ loadIsStar 0 = false ∧ loadMass 0 = 1 / 10) := by
  have hstar : loadIsStar (packDiscriminant true m) = true := by
    simp only [packDiscriminant, if_true, loadIsStar, decide_eq_true_eq]
    nlinarith
  refine ⟨⟨hstar, ?_⟩, ?_, ?_, ?_⟩
  · simp only [loadMass, hstar, if_true]
    simp only [packDiscriminant, if_true]
    ring
  · simp [packDiscriminant]
  · simp [loadIsStar]
  · simp [loadMass, loadIsStar]

/-- Witness for C1 at the concrete star mass 250 (alpha 1.25). -/
theorem mass_packing_round_trip_witness :
    (0 : ℚ) ≤ 250 ∧
    ((loadIsStar (packDiscriminant true 250) = true ∧
       loadMass (packDiscriminant true 250) = 250) ∧
     (packDiscriminant false 250 = 0 ∧ loadIsStar 0 = false ∧ loadMass 0 = 1 / 10)) :=
  ⟨by norm_num, mass_packing_round_trip 250 (by norm_num)⟩

/-! ### C8 — 2D overlay letterboxing

Source: GalaxyVisualization updateScale (src/unnamed/part_000 lines
46-75, identically repeated in threejs/src App.tsx):
if containerAspect > imageAspect the scale is clientHeight / H and only
the x offset is nonzero, otherwise the scale is clientWidth / W and only
the y offset is nonzero. -/

def ORIGINAL_WIDTH : ℚ := 3214

def ORIGINAL_HEIGHT : ℚ := 3233

/-- The overlay scale and centering offsets, transcribed from
updateScale.  Returns (newScale, xOffset, yOffset). -/
def updateScale (cw ch : ℚ) : ℚ × ℚ × ℚ :=
  let containerAspect := cw / ch
  let imageAspect := ORIGINAL_WIDTH / ORIGINAL_HEIGHT
  if containerAspect > imageAspect then
    (ch / ORIGINAL_HEIGHT, (cw - ORIGINAL_WIDTH * (ch / ORIGINAL_HEIGHT)) / 2, 0)
  else
    (cw / ORIGINAL_WIDTH, 0, (ch - ORIGINAL_HEIGHT * (cw / ORIGINAL_WIDTH)) / 2)

/-- C8: for any positive viewport the computed scale is the uniform
letterbox scale min(Cw/W, Ch/H) and the offsets are the centering
offsets ((Cw - W s)/2, (Ch - H s)/2); at viewport 1920 x 1080 the scaled
image fits (scaledWidth at most 1920, scaledHeight at most 1080) and
exactly one of the two offsets is zero. -/
theorem letterboxing_exact :
    (∀ cw ch : ℚ, 0 < cw → 0 < ch →
      (updateScale cw ch).1 = min (cw / ORIGINAL_WIDTH) (ch / ORIGINAL_HEIGHT) ∧
      (updateScale cw ch).2.1 = (cw - ORIGINAL_WIDTH * (updateScale cw ch).1) / 2 ∧
      (updateScale cw ch).2.2 = (ch - ORIGINAL_HEIGHT * (updateScale cw ch).1) / 2) ∧
    (ORIGINAL_WIDTH * (updateScale 1920 1080).1 ≤ 1920 ∧
      ORIGINAL_HEIGHT * (updateScale 1920 1080).1 ≤ 1080 ∧
      (updateScale 1920 1080).2.1 ≠ 0 ∧ (updateScale 1920 1080).2.2 = 0) := by
  constructor
  · intro cw ch hcw hch
    by_cases h : ORIGINAL_WIDTH / ORIGINAL_HEIGHT < cw / ch
    · have hmin : ch / ORIGINAL_HEIGHT ≤ cw / ORIGINAL_WIDTH := by
        rw [div_le_div_iff (by norm_num [ORIGINAL_HEIGHT]) (by norm_num [ORIGINAL_WIDTH])]
        rw [div_lt_div_iff (by norm_num [ORIGINAL_HEIGHT]) hch] at h
        nlinarith
      refine ⟨?_, ?_, ?_⟩
      · simp only [updateScale, if_pos h, gt_iff_lt]
        rw [min_eq_right hmin]
      · simp only [updateScale, if_pos h, gt_iff_lt]
      · simp only [updateScale, if_pos h, gt_iff_lt]
        rw [mul_div_cancel₀]
        · ring
        · norm_num [ORIGINAL_HEIGHT]
    · have hmin : cw / ORIGINAL_WIDTH ≤ ch / ORIGINAL_HEIGHT := by
        rw [div_le_div_iff (by norm_num [ORIGINAL_WIDTH]) (by norm_num [ORIGINAL_HEIGHT])]
        rw [not_lt, div_le_div_iff hch (by norm_num [ORIGINAL_HEIGHT])] at h
        nlinarith
      refine ⟨?_, ?_, ?_⟩
      · simp only [updateScale, if_neg h, gt_iff_lt]
        rw [min_eq_left hmin]
      · simp only [updateScale, if_neg h, gt_iff_lt]
        rw [mul_div_cancel₀]
        · ring
        · norm_num [ORIGINAL_WIDTH]
      · simp only [updateScale, if_neg h, gt_iff_lt]
  · refine ⟨?_, ?_, ?_, ?_⟩ <;> norm_num [updateScale, ORIGINAL_WIDTH, ORIGINAL_HEIGHT]

/-- Witness for C8 at the 1920 x 1080 viewport named by the claim. -/
theorem letterboxing_exact_witness :
    (updateScale 1920 1080).1 = min ((1920 : ℚ) / ORIGINAL_WIDTH) ((1080 : ℚ) / ORIGINAL_HEIGHT) :=
  (letterboxing_exact.1 1920 1080 (by norm_num) (by norm_num)).1

/-! ### C9 — snapshot import shape validation

Source: GalaxySelector (in threejs/src App.tsx), the only import-time
shape validator in the repository.  validateGalaxyData requires
data.particles to be a non-empty array and every entry to have a
3-element position array, a 3-element velocity array, a 3-element color
array and a numeric mass; handleFileUpload invokes the onSelect
callback only when validation succeeds, otherwise it alerts and loads
nothing. -/

/-- A JSON value as produced by JSON.parse. -/
inductive JsonValue where
  | jnull : JsonValue
  | jbool : Bool → JsonValue
  | jnum : ℚ → JsonValue
  | jstr : String → JsonValue
  | jarr : List JsonValue → JsonValue
  | jobj : List (String × JsonValue) → JsonValue

/-- JavaScript member access p.k: a field of an object, undefined (none)
otherwise. -/
def getField : JsonValue → String → Option JsonValue
  | JsonValue.jobj fs, k => fs.lookup k
  | _, _ => none

/-- Array.isArray(v) && v.length === 3, on a possibly-undefined value. -/
def isArray3 : Option JsonValue → Bool
  | some (JsonValue.jarr xs) => xs.length == 3
  | _ => false

/-- typeof v === number, on a possibly-undefined value. -/
def isNumber : Option JsonValue → Bool
  | some (JsonValue.jnum _) => true
  | _ => false

/-- The per-entry test of validateGalaxyData (App.tsx):
Array.isArray(p.position) && p.position.length === 3 &&
Array.isArray(p.velocity) && p.velocity.length === 3 &&
Array.isArray(p.color) && p.color.length === 3 &&
typeof p.mass === number. -/
def validEntry (p : JsonValue) : Bool :=
  isArray3 (getField p "position") && isArray3 (getField p "velocity") &&
    isArray3 (getField p "color") && isNumber (getField p "mass")

/-- validateGalaxyData: false when data.particles is missing, not an
array, or empty (the !data?.particles?.length guard), else every entry
must pass validEntry. -/
def validateGalaxyData (data : JsonValue) : Bool :=
  match getField data "particles" with
  | some (JsonValue.jarr ps) => !ps.isEmpty && ps.all validEntry
  | _ => false

/-- handleFileUpload after a successful JSON.parse: the onSelect
callback receives the document only when validation succeeds; a failed
validation produces an alert and no load (modelled as none). -/
def handleFileUpload (data : JsonValue) : Option JsonValue :=
  if validateGalaxyData data then some data else none

/-- The shape the validator actually demands of one entry. -/
def EntryShape (p : JsonValue) : Prop :=
  (∃ a b c, getField p "position" = some (JsonValue.jarr [a, b, c])) ∧
    (∃ a b c, getField p "velocity" = some (JsonValue.jarr [a, b, c])) ∧
    (∃ a b c, getField p "color" = some (JsonValue.jarr [a, b, c])) ∧
    (∃ q, getField p "mass" = some (JsonValue.jnum q))

lemma isArray3_eq_true_iff (v : Option JsonValue) :
    isArray3 v = true ↔ ∃ a b c, v = some (JsonValue.jarr [a, b, c]) := by
  cases v with
  | none => simp [isArray3]
  | some j =>
    cases j <;> simp [isArray3, List.length_eq_three]

lemma isNumber_eq_true_iff (v : Option JsonValue) :
    isNumber v = true ↔ ∃ q, v = some (JsonValue.jnum q) := by
  cases v with
  | none => simp [isNumber]
  | some j => cases j <;> simp [isNumber]

lemma validEntry_eq_true_iff (p : JsonValue) : validEntry p = true ↔ EntryShape p := by
  simp only [validEntry, Bool.and_eq_true, isArray3_eq_true_iff, isNumber_eq_true_iff,
    EntryShape]
  tauto

/-- An otherwise valid snapshot entry whose color is the hex string
"#ff0000" — accepted by the claim, rejected by the code. -/
def hexColorEntry : JsonValue :=
  JsonValue.jobj
    [("position", JsonValue.jarr [JsonValue.jnum 0, JsonValue.jnum 0, JsonValue.jnum 0]),
     ("velocity", JsonValue.jarr [JsonValue.jnum 0, JsonValue.jnum 0, JsonValue.jnum 0]),
     ("color", JsonValue.jstr "#ff0000"),
     ("mass", JsonValue.jnum 1)]

/-- A snapshot document containing only hexColorEntry. -/
def hexColorDoc : JsonValue :=
  JsonValue.jobj [("particles", JsonValue.jarr [hexColorEntry])]

/-- An otherwise valid snapshot entry with no velocity field — the claim
says velocity defaults to (0,0,0) when absent, the code rejects. -/
def noVelocityEntry : JsonValue :=
  JsonValue.jobj
    [("position", JsonValue.jarr [JsonValue.jnum 0, JsonValue.jnum 0, JsonValue.jnum 0]),
     ("color", JsonValue.jarr [JsonValue.jnum 1, JsonValue.jnum 0, JsonValue.jnum 0]),
     ("mass", JsonValue.jnum 1)]

/-- A snapshot document containing only noVelocityEntry. -/
def noVelocityDoc : JsonValue :=
  JsonValue.jobj [("particles", JsonValue.jarr [noVelocityEntry])]

/-- Counterexample to C9 as stated: a document whose single entry
carries a hex-string color (claimed to be accepted) is rejected by the
validator and never reaches the selection callback, and so is a
document whose single entry lacks a velocity (claimed to default to
zero). -/
theorem import_hex_color_rejected :
    validateGalaxyData hexColorDoc = false ∧ handleFileUpload hexColorDoc = none ∧
      validateGalaxyData noVelocityDoc = false ∧ handleFileUpload noVelocityDoc = none :=
  ⟨rfl, rfl, rfl, rfl⟩

/-- C9 amended: the validator accepts a document exactly when its
particles field is a non-empty array each of whose entries has a
3-element position array, a 3-element velocity array (velocity is
required at import, not defaulted), a 3-element color array (hex color
strings are rejected) and a numeric mass; any other document is
rejected wholly and the selection callback is never invoked, so no
partial state is loaded. -/
theorem import_validation_characterization :
    (∀ data ps, getField data "particles" = some (JsonValue.jarr ps) →
      (handleFileUpload data = some data ↔ ps ≠ [] ∧ ∀ p ∈ ps, EntryShape p)) ∧
    (∀ data, validateGalaxyData data = false → handleFileUpload data = none) ∧
    (∀ data, (∀ ps, getField data "particles" ≠ some (JsonValue.jarr ps)) →
      handleFileUpload data = none) := by
  refine ⟨?_, ?_, ?_⟩
  · intro data ps h
    have hv : validateGalaxyData data = (!ps.isEmpty && ps.all validEntry) := by
      simp [validateGalaxyData, h]
    constructor
    · intro hsome
      have hval : validateGalaxyData data = true := by
        by_contra hfalse
        rw [Bool.not_eq_true] at hfalse
        simp [handleFileUpload, hfalse] at hsome
      rw [hv, Bool.and_eq_true, List.all_eq_true] at hval
      refine ⟨?_, fun p hp => (validEntry_eq_true_iff p).mp (hval.2 p hp)⟩
      intro hnil
      subst hnil
      simp at hval
    · intro hshape
      have hval : validateGalaxyData data = true := by
        rw [hv, Bool.and_eq_true, List.all_eq_true]
        refine ⟨?_, fun p hp => (validEntry_eq_true_iff p).mpr (hshape.2 p hp)⟩
        cases ps with
        | nil => exact absurd rfl hshape.1
        | cons a l => rfl
      simp [handleFileUpload, hval]
  · intro data hfalse
    simp [handleFileUpload, hfalse]
  · intro data h
    have hfalse : validateGalaxyData data = false := by
      unfold validateGalaxyData
      cases hf : getField data "particles" with
      | none => rfl
      | some j =>
        cases j with
        | jarr ps => exact absurd hf (h ps)
        | jnull => rfl
        | jbool b => rfl
        | jnum q => rfl
        | jstr s => rfl
        | jobj fs => rfl
    simp [handleFileUpload, hfalse]

/-- A snapshot entry of the exact shape the validator demands. -/
def arrayColorEntry : JsonValue :=
  JsonValue.jobj
    [("position", JsonValue.jarr [JsonValue.jnum 1, JsonValue.jnum 2, JsonValue.jnum 3]),
     ("velocity", JsonValue.jarr [JsonValue.jnum 0, JsonValue.jnum 0, JsonValue.jnum 0]),
     ("color", JsonValue.jarr [JsonValue.jnum 1, JsonValue.jnum 0, JsonValue.jnum 0]),
     ("mass", JsonValue.jnum 5)]

/-- A snapshot document containing only arrayColorEntry. -/
def arrayColorDoc : JsonValue :=
  JsonValue.jobj [("particles", JsonValue.jarr [arrayColorEntry])]

/-- Witness for the amended C9: the characterization applied to a
concrete well-shaped document shows it is accepted. -/
theorem import_validation_characterization_witness :
    handleFileUpload arrayColorDoc = some arrayColorDoc := by
  refine (import_validation_characterization.1 arrayColorDoc [arrayColorEntry]
    rfl).mpr ⟨by simp, ?_⟩
  intro p hp
  rw [List.mem_singleton] at hp
  subst hp
  exact ⟨⟨JsonValue.jnum 1, JsonValue.jnum 2, JsonValue.jnum 3, rfl⟩,
    ⟨JsonValue.jnum 0, JsonValue.jnum 0, JsonValue.jnum 0, rfl⟩,
    ⟨JsonValue.jnum 1, JsonValue.jnum 0, JsonValue.jnum 0, rfl⟩,
    ⟨5, rfl⟩⟩

/-! ### CPU force integrator

Source: GalaxySimulation.tsx, the spiral-arm variant (the useFrame body
at the cited lines 354-447 of the concatenated component file), with its
constants FRICTION = 0.995, RANDOM_FORCE = 0.00002,
FORCE_MULTIPLIER = 0.0002, POSITION_MULTIPLIER = 10,
SPIRAL_TIGHTNESS = 0.5, NUM_ARMS = 4.  The per-frame Math.random draws
are made explicit inputs (a FrameRandoms record per particle), so the
step is a deterministic function of the particle state, the star list
and the drawn randoms. -/

def FRICTION : ℚ := 995 / 1000

def RANDOM_FORCE : ℚ := 2 / 100000

def FORCE_MULTIPLIER : ℚ := 2 / 10000

def POSITION_MULTIPLIER : ℚ := 10

def SPIRAL_TIGHTNESS : ℚ := 1 / 2

def NUM_ARMS : ℚ := 4

/-- The Math.random() values drawn for one particle in one frame: three
for the random force and, on respawn, one each for the arm index, the
new radius, the angular offset and the vertical position. -/
structure FrameRandoms where
  fx : ℚ
  fy : ℚ
  fz : ℚ
  arm : ℚ
  radius : ℚ
  offset : ℚ
  height : ℚ
deriving DecidableEq

/-- One star term of the force-accumulation loop (GalaxySimulation.tsx
lines 378-404): displacement d = starPos - particlePos, contribution
skipped unless distance > 0.1, radial part (d / distance) * force with
force = FORCE_MULTIPLIER * starMass / (distanceSquared * sqrt(distance)),
plus the spiral tangential part of magnitude force * 0.5 applied to the
x and z components. -/
def starContribution (M : MathOracle) (pos starPos : Vec3) (starMass : ℚ) : Vec3 :=
  let d := starPos.sub pos
  let distanceSquared := d.dot d
  let distance := M.sqrt distanceSquared
  if distance > 1 / 10 then
    let force := FORCE_MULTIPLIER * starMass / (distanceSquared * M.sqrt distance)
    let angle := M.atan2 pos.z pos.x
    let tangentialForce := force * (1 / 2)
    ⟨d.x / distance * force + -(M.sin angle) * tangentialForce,
      d.y / distance * force,
      d.z / distance * force + M.cos angle * tangentialForce⟩
  else Vec3.zero

/-- The total force on one particle in one frame: the star
contributions plus the small random force (random - 0.5 scaled by
RANDOM_FORCE, with a tenth of that vertically). -/
def totalForce (M : MathOracle) (stars : List (Vec3 × ℚ)) (pos : Vec3)
    (r : FrameRandoms) : Vec3 :=
  (stars.foldl (fun acc s => acc.add (starContribution M pos s.1 s.2)) Vec3.zero).add
    ⟨(r.fx - 1 / 2) * RANDOM_FORCE, (r.fy - 1 / 2) * RANDOM_FORCE * (1 / 10),
      (r.fz - 1 / 2) * RANDOM_FORCE⟩

/-- The velocity update (GalaxySimulation.tsx lines 412-417):
velocity * FRICTION + totalForce * cappedDelta componentwise, with the
additional vertical damping factor 0.98 on the y component. -/
def integrateVelocity (dt : ℚ) (vel force : Vec3) : Vec3 :=
  ⟨vel.x * FRICTION + force.x * dt,
    (vel.y * FRICTION + force.y * dt) * (98 / 100),
    vel.z * FRICTION + force.z * dt⟩

/-- The respawn radius 4 + Math.random() * 4 (line 429). -/
def respawnRadius (r : FrameRandoms) : ℚ := 4 + r.radius * 4

/-- The respawn angle (lines 427-432): armAngle + newRadius *
SPIRAL_TIGHTNESS + randomOffset with armAngle =
(floor(random * 4) / 4) * Math.PI * 2 and randomOffset =
(random - 0.5) * 0.3. -/
def respawnAngle (M : MathOracle) (r : FrameRandoms) : ℚ :=
  ((Int.floor (r.arm * NUM_ARMS) : ℚ) / NUM_ARMS) * M.pi * 2 +
    respawnRadius r * SPIRAL_TIGHTNESS + (r.offset - 1 / 2) * (3 / 10)

/-- The respawned state (lines 424-443): an arm-relative position at the
fresh radius with a small vertical jitter, and a freshly seeded
tangential orbital velocity of magnitude sqrt(0.1 / max(0.5, radius)). -/
def respawnState (M : MathOracle) (r : FrameRandoms) : Vec3 × Vec3 :=
  let newRadius := respawnRadius r
  let finalAngle := respawnAngle M r
  let orbitalSpeed := M.sqrt ((1 / 10) / max (1 / 2) newRadius)
  (⟨M.cos finalAngle * newRadius, (r.height - 1 / 2) * (2 / 10), M.sin finalAngle * newRadius⟩,
    ⟨-(M.sin finalAngle) * orbitalSpeed, 0, M.cos finalAngle * orbitalSpeed⟩)

/-- One particle of one frame of the CPU integrator useFrame body:
cappedDelta = min(delta, 0.016); xz radius measured from the position at
the top of the iteration; force accumulation; velocity and position
integration; and the boundary respawn when that radius exceeds 12. -/
def particleStep (M : MathOracle) (stars : List (Vec3 × ℚ)) (delta : ℚ)
    (r : FrameRandoms) (pos vel : Vec3) : Vec3 × Vec3 :=
  let cappedDelta := min delta (16 / 1000)
  let radius := M.sqrt (pos.x * pos.x + pos.z * pos.z)
  let newVel := integrateVelocity cappedDelta vel (totalForce M stars pos r)
  let newPos := pos.add (Vec3.smul (cappedDelta * POSITION_MULTIPLIER) newVel)
  if radius > 12 then respawnState M r else (newPos, newVel)

/-- The per-frame loop over the particle array, particle i consuming the
randoms drawn for index i; particles never read each other, so the
in-place loop is this map. -/
def updateLoop (M : MathOracle) (stars : List (Vec3 × ℚ)) (delta : ℚ)
    (rs : ℕ → FrameRandoms) : ℕ → List (Vec3 × Vec3) → List (Vec3 × Vec3)
  | _, [] => []
  | i, p :: ps =>
    particleStep M stars delta (rs i) p.1 p.2 :: updateLoop M stars delta rs (i + 1) ps

lemma updateLoop_get? (M : MathOracle) (stars : List (Vec3 × ℚ)) (delta : ℚ)
    (rs : ℕ → FrameRandoms) :
    ∀ (ps : List (Vec3 × Vec3)) (k i : ℕ),
      (updateLoop M stars delta rs k ps).get? i =
        (ps.get? i).map (fun p => particleStep M stars delta (rs (k + i)) p.1 p.2) := by
  intro ps
  induction ps with
  | nil => intro k i; simp [updateLoop]
  | cons p ps ih =>
    intro k i
    cases i with
    | zero => simp [updateLoop]
    | succ j =>
      simp only [updateLoop, List.get?_cons_succ]
      rw [ih (k + 1) j]
      have h1 : k + 1 + j = k + (j + 1) := by omega
      rw [h1]

/-- The concrete math oracle used by witnesses and counterexamples: a
square root that is exact on the perfect squares 0, 4, 16, 169 and 1/60,
trigonometric functions constantly (sin, cos) = (0, 1) — a consistent
point on the unit circle — atan2 = 0 (the value Math.atan2(0, 0)
returns), and pi arbitrary. -/
def oracleA : MathOracle where
  sqrt := fun q =>
    if q = 16 then 4 else if q = 4 then 2 else if q = 169 then 13 else 0
  sin := fun _ => 0
  cos := fun _ => 1
  atan2 := fun _ _ => 0
  pi := 0

/-- All Math.random() draws equal to 1/2, which makes every random force
component vanish. -/
def randsHalf : FrameRandoms := ⟨1 / 2, 1 / 2, 1 / 2, 1 / 2, 1 / 2, 1 / 2, 1 / 2⟩

/-- A single star for concrete evaluations: position (4,0,0), mass 320,
at distance 4 from the particle at the origin. -/
def starA : List (Vec3 × ℚ) := [(⟨4, 0, 0⟩, 320)]

/-- Counterexample to C4 as stated: for the particle at the origin with
zero velocity and declared mass 2, one step with the single star starA
gives x velocity totalForce.x * dt (the code applies the accumulated
force directly as an acceleration; particle mass is not an input of the
loop at all), which differs from the claimed
velocity * damping + (force/mass) * dt — the damping term vanishes here
because the incoming velocity is zero, so the claimed value is
(totalForce.x / 2) * dt for every damping constant. -/
theorem cpu_integration_mass_division_refuted :
    (particleStep oracleA starA 1 randsHalf Vec3.zero Vec3.zero).2.x =
        (totalForce oracleA starA Vec3.zero randsHalf).x * min 1 (16 / 1000) ∧
      (particleStep oracleA starA 1 randsHalf Vec3.zero Vec3.zero).2.x ≠
        (totalForce oracleA starA Vec3.zero randsHalf).x / 2 * min 1 (16 / 1000) := by
  constructor
  · norm_num [particleStep, integrateVelocity, totalForce, starContribution, oracleA,
      randsHalf, starA, Vec3.add, Vec3.sub, Vec3.smul, Vec3.dot, Vec3.zero, Vec3.mk.injEq,
      FRICTION, RANDOM_FORCE, FORCE_MULTIPLIER, POSITION_MULTIPLIER, min_def]
  · norm_num [particleStep, integrateVelocity, totalForce, starContribution, oracleA,
      randsHalf, starA, Vec3.add, Vec3.sub, Vec3.smul, Vec3.dot, Vec3.zero, Vec3.mk.injEq,
      FRICTION, RANDOM_FORCE, FORCE_MULTIPLIER, POSITION_MULTIPLIER, min_def]

/-- C4 amended: with dt = min(realDt, 0.016), whenever the boundary
respawn does not fire the integrator updates
velocity = velocity * FRICTION + force * dt (the accumulated force is
applied directly, with no division by particle mass, and the y component
receives an additional 0.98 vertical damping), then
position += velocity * dt * POSITION_MULTIPLIER, and the damping
constant FRICTION = 0.995 is strictly less than 1. -/
theorem cpu_integration_step (M : MathOracle) (stars : List (Vec3 × ℚ)) (delta : ℚ)
    (r : FrameRandoms) (pos vel : Vec3)
    (h : ¬ M.sqrt (pos.x * pos.x + pos.z * pos.z) > 12) :
    (particleStep M stars delta r pos vel).2 =
        ⟨vel.x * FRICTION + (totalForce M stars pos r).x * min delta (16 / 1000),
          (vel.y * FRICTION + (totalForce M stars pos r).y * min delta (16 / 1000)) * (98 / 100),
          vel.z * FRICTION + (totalForce M stars pos r).z * min delta (16 / 1000)⟩ ∧
      (particleStep M stars delta r pos vel).1 =
        pos.add (Vec3.smul (min delta (16 / 1000) * POSITION_MULTIPLIER)
          (particleStep M stars delta r pos vel).2) ∧
      FRICTION < 1 := by
  refine ⟨?_, ?_, by norm_num [FRICTION]⟩
  · simp only [particleStep, if_neg h, integrateVelocity]
  · simp only [particleStep, if_neg h]

/-- Witness for the amended C4 at the concrete star configuration starA
and the particle at rest at the origin. -/
theorem cpu_integration_step_witness :
    (particleStep oracleA starA 1 randsHalf Vec3.zero Vec3.zero).2 =
        ⟨Vec3.zero.x * FRICTION +
            (totalForce oracleA starA Vec3.zero randsHalf).x * min 1 (16 / 1000),
          (Vec3.zero.y * FRICTION +
              (totalForce oracleA starA Vec3.zero randsHalf).y * min 1 (16 / 1000)) * (98 / 100),
          Vec3.zero.z * FRICTION +
            (totalForce oracleA starA Vec3.zero randsHalf).z * min 1 (16 / 1000)⟩ ∧
      (particleStep oracleA starA 1 randsHalf Vec3.zero Vec3.zero).1 =
        Vec3.zero.add (Vec3.smul (min 1 (16 / 1000) * POSITION_MULTIPLIER)
          (particleStep oracleA starA 1 randsHalf Vec3.zero Vec3.zero).2) ∧
      FRICTION < 1 :=
  cpu_integration_step oracleA starA 1 randsHalf Vec3.zero Vec3.zero
    (by norm_num [oracleA, Vec3.zero])

/-- Counterexample to C5 as stated: with the particle at the origin and
the star of starA at (4,0,0) with mass 320 (so d = (4,0,0), dist = 4),
the claimed contribution G * starMass * d / (dist^2 * dist) with
G = FORCE_MULTIPLIER is (1/250, 0, 0), but the code contributes
(1/500, 0, 1/1000): the magnitude carries an extra sqrt(dist) in the
denominator and a tangential z component of half that magnitude is
added, so the contribution is not even parallel to d (its z component is
1/1000 while d has z = 0, refuting the claimed formula for every choice
of the constant G). -/
theorem cpu_force_inverse_cube_refuted :
    starContribution oracleA Vec3.zero ⟨4, 0, 0⟩ 320 = ⟨1 / 500, 0, 1 / 1000⟩ ∧
      Vec3.smul (FORCE_MULTIPLIER * 320 / (4 * 4 * 4)) ⟨4, 0, 0⟩ = ⟨1 / 250, 0, 0⟩ ∧
      ((1 : ℚ) / 500, (0 : ℚ), (1 : ℚ) / 1000) ≠ ((1 : ℚ) / 250, (0 : ℚ), (0 : ℚ)) := by
  refine ⟨?_, ?_, by norm_num⟩
  · norm_num [starContribution, oracleA, Vec3.sub, Vec3.dot, Vec3.zero, Vec3.mk.injEq,
      FORCE_MULTIPLIER]
  · norm_num [Vec3.smul, Vec3.mk.injEq, FORCE_MULTIPLIER]

/-- C5 amended: for every star, with d = starPos - particlePos and
dist = sqrt(d.d), the contribution is skipped exactly when
dist is not above 0.1; otherwise, provided dist^2 = d.d (the square root
is exact) and dist is nonzero, the accumulated contribution is
FORCE_MULTIPLIER * starMass * d / (dist^2 * sqrt(dist) * dist) — an
inverse-(3.5)-power law, not the claimed inverse cube — plus a
tangential spiral term of half the radial magnitude in the direction
(-sin angle, 0, cos angle) with angle = atan2(particle.z, particle.x). -/
theorem cpu_force_contribution (M : MathOracle) (pos starPos : Vec3) (starMass : ℚ)
    (hexact : M.sqrt ((starPos.sub pos).dot (starPos.sub pos)) *
        M.sqrt ((starPos.sub pos).dot (starPos.sub pos)) =
      (starPos.sub pos).dot (starPos.sub pos)) :
    (M.sqrt ((starPos.sub pos).dot (starPos.sub pos)) ≤ 1 / 10 →
      starContribution M pos starPos starMass = Vec3.zero) ∧
    (1 / 10 < M.sqrt ((starPos.sub pos).dot (starPos.sub pos)) →
      starContribution M pos starPos starMass =
        (Vec3.smul
          (FORCE_MULTIPLIER * starMass /
            (M.sqrt ((starPos.sub pos).dot (starPos.sub pos)) *
              M.sqrt ((starPos.sub pos).dot (starPos.sub pos)) *
              M.sqrt (M.sqrt ((starPos.sub pos).dot (starPos.sub pos))) *
              M.sqrt ((starPos.sub pos).dot (starPos.sub pos))))
          (starPos.sub pos)).add
        (Vec3.smul
          (FORCE_MULTIPLIER * starMass /
            (M.sqrt ((starPos.sub pos).dot (starPos.sub pos)) *
              M.sqrt ((starPos.sub pos).dot (starPos.sub pos)) *
              M.sqrt (M.sqrt ((starPos.sub pos).dot (starPos.sub pos)))) * (1 / 2))
          ⟨-(M.sin (M.atan2 pos.z pos.x)), 0, M.cos (M.atan2 pos.z pos.x)⟩)) := by
  set d := starPos.sub pos with hd
  set dist := M.sqrt (d.dot d) with hdist
  constructor
  · intro hle
    rw [starContribution]
    rw [if_neg (by rw [← hd, ← hdist]; exact not_lt.mpr hle)]
  · intro hgt
    have hne : dist ≠ 0 := by
      intro h0
      rw [h0] at hgt
      norm_num at hgt
    rw [starContribution]
    rw [if_pos (by rw [← hd, ← hdist]; exact hgt)]
    simp only [← hd, ← hdist, Vec3.smul, Vec3.add, Vec3.mk.injEq]
    rw [← hexact]
    refine ⟨by field_simp; ring, by field_simp; ring, by field_simp; ring⟩

/-- Witness for the amended C5 at the concrete configuration of
cpu_force_inverse_cube_refuted, discharging the exactness hypothesis
(sqrt 16 = 4) and the distance guard (4 greater than 0.1) there. -/
theorem cpu_force_contribution_witness :
    starContribution oracleA Vec3.zero ⟨4, 0, 0⟩ 320 =
      (Vec3.smul
        (FORCE_MULTIPLIER * 320 /
          (oracleA.sqrt (((⟨4, 0, 0⟩ : Vec3).sub Vec3.zero).dot ((⟨4, 0, 0⟩ : Vec3).sub Vec3.zero)) *
            oracleA.sqrt (((⟨4, 0, 0⟩ : Vec3).sub Vec3.zero).dot ((⟨4, 0, 0⟩ : Vec3).sub Vec3.zero)) *
            oracleA.sqrt (oracleA.sqrt (((⟨4, 0, 0⟩ : Vec3).sub Vec3.zero).dot
              ((⟨4, 0, 0⟩ : Vec3).sub Vec3.zero))) *
            oracleA.sqrt (((⟨4, 0, 0⟩ : Vec3).sub Vec3.zero).dot ((⟨4, 0, 0⟩ : Vec3).sub Vec3.zero))))
        ((⟨4, 0, 0⟩ : Vec3).sub Vec3.zero)).add
      (Vec3.smul
        (FORCE_MULTIPLIER * 320 /
          (oracleA.sqrt (((⟨4, 0, 0⟩ : Vec3).sub Vec3.zero).dot ((⟨4, 0, 0⟩ : Vec3).sub Vec3.zero)) *
            oracleA.sqrt (((⟨4, 0, 0⟩ : Vec3).sub Vec3.zero).dot ((⟨4, 0, 0⟩ : Vec3).sub Vec3.zero)) *
            oracleA.sqrt (oracleA.sqrt (((⟨4, 0, 0⟩ : Vec3).sub Vec3.zero).dot
              ((⟨4, 0, 0⟩ : Vec3).sub Vec3.zero)))) * (1 / 2))
        ⟨-(oracleA.sin (oracleA.atan2 Vec3.zero.z Vec3.zero.x)), 0,
          oracleA.cos (oracleA.atan2 Vec3.zero.z Vec3.zero.x)⟩) :=
  (cpu_force_contribution oracleA Vec3.zero ⟨4, 0, 0⟩ 320
    (by norm_num [oracleA, Vec3.sub, Vec3.dot, Vec3.zero])).2
    (by norm_num [oracleA, Vec3.sub, Vec3.dot, Vec3.zero])

/-- Counterexample to C6 as stated: the ambient particle at (0, 100, 0)
with zero velocity has 3D distance 100 from the center, far beyond the
maximum radius 12, yet one CPU integration step (no stars, neutral
randoms) leaves it exactly where it was — the code tests only the
xz-plane radius sqrt(x^2 + z^2), which is 0 here, so the respawn never
fires and the particle is not relocated to the [4,8] band. -/
theorem boundary_respawn_refuted :
    (particleStep oracleA [] 1 randsHalf ⟨0, 100, 0⟩ Vec3.zero).1 = ⟨0, 100, 0⟩ ∧
      ((particleStep oracleA [] 1 randsHalf ⟨0, 100, 0⟩ Vec3.zero).1.x ^ 2 +
          (particleStep oracleA [] 1 randsHalf ⟨0, 100, 0⟩ Vec3.zero).1.y ^ 2 +
          (particleStep oracleA [] 1 randsHalf ⟨0, 100, 0⟩ Vec3.zero).1.z ^ 2 = 100 ^ 2) ∧
      (100 : ℚ) ^ 2 > 12 ^ 2 ∧
      ((particleStep oracleA [] 1 randsHalf ⟨0, 100, 0⟩ Vec3.zero).1.x ^ 2 +
          (particleStep oracleA [] 1 randsHalf ⟨0, 100, 0⟩ Vec3.zero).1.z ^ 2 < 4 ^ 2) := by
  have hstep : (particleStep oracleA [] 1 randsHalf ⟨0, 100, 0⟩ Vec3.zero).1 = ⟨0, 100, 0⟩ := by
    norm_num [particleStep, integrateVelocity, totalForce, oracleA, randsHalf,
      Vec3.add, Vec3.smul, Vec3.zero, Vec3.mk.injEq, FRICTION, RANDOM_FORCE,
      POSITION_MULTIPLIER, min_def, List.foldl]
  refine ⟨hstep, ?_, by norm_num, ?_⟩ <;> rw [hstep] <;> norm_num

/-- C6 amended: whenever the xz-plane radius sqrt(x^2 + z^2) of the
position at the top of the loop iteration exceeds 12, the step respawns
the particle at an arm-relative position whose xz radius is the fresh
radius 4 + random * 4, which lies in the band [4, 8) (within the claimed
[4, 8]), with the freshly seeded tangential orbital velocity of
magnitude sqrt(0.1 / max(0.5, newRadius)); and the loop applies the very
same step function to every particle of the array. -/
theorem boundary_respawn_band (M : MathOracle) (stars : List (Vec3 × ℚ)) (delta : ℚ)
    (r : FrameRandoms) (pos vel : Vec3)
    (hr : M.sqrt (pos.x * pos.x + pos.z * pos.z) > 12)
    (h0 : 0 ≤ r.radius) (h1 : r.radius < 1)
    (htrig : M.cos (respawnAngle M r) ^ 2 + M.sin (respawnAngle M r) ^ 2 = 1) :
    ((particleStep M stars delta r pos vel).1.x ^ 2 +
          (particleStep M stars delta r pos vel).1.z ^ 2 = respawnRadius r ^ 2 ∧
        4 ^ 2 ≤ respawnRadius r ^ 2 ∧ respawnRadius r ^ 2 < 8 ^ 2 ∧
        4 ≤ respawnRadius r ∧ respawnRadius r < 8) ∧
      (particleStep M stars delta r pos vel).2 =
        ⟨-(M.sin (respawnAngle M r)) * M.sqrt ((1 / 10) / max (1 / 2) (respawnRadius r)), 0,
          M.cos (respawnAngle M r) * M.sqrt ((1 / 10) / max (1 / 2) (respawnRadius r))⟩ ∧
      (∀ (ps : List (Vec3 × Vec3)) (rs : ℕ → FrameRandoms) (i : ℕ),
        (updateLoop M stars delta rs 0 ps).get? i =
          (ps.get? i).map (fun p => particleStep M stars delta (rs i) p.1 p.2)) := by
  have hfire : particleStep M stars delta r pos vel = respawnState M r := by
    rw [particleStep]
    rw [if_pos hr]
  have hb1 : 4 ≤ respawnRadius r := by
    rw [respawnRadius]; nlinarith
  have hb2 : respawnRadius r < 8 := by
    rw [respawnRadius]; nlinarith
  refine ⟨⟨?_, by nlinarith, by nlinarith, hb1, hb2⟩, ?_, ?_⟩
  · rw [hfire]
    simp only [respawnState]
    nlinarith [htrig]
  · rw [hfire]
    simp only [respawnState]
  · intro ps rs i
    have h := updateLoop_get? M stars delta rs ps 0 i
    simpa using h

/-- Witness for the amended C6: the particle at (13, 0, 0) has xz radius
13 greater than 12, the neutral randoms give the fresh radius 6, and the
concrete oracle satisfies the unit-circle identity at the respawn angle;
the theorem relocates it into the band. -/
theorem boundary_respawn_band_witness :
    ((particleStep oracleA [] 1 randsHalf ⟨13, 0, 0⟩ Vec3.zero).1.x ^ 2 +
          (particleStep oracleA [] 1 randsHalf ⟨13, 0, 0⟩ Vec3.zero).1.z ^ 2 =
            respawnRadius randsHalf ^ 2 ∧
        4 ^ 2 ≤ respawnRadius randsHalf ^ 2 ∧ respawnRadius randsHalf ^ 2 < 8 ^ 2 ∧
        4 ≤ respawnRadius randsHalf ∧ respawnRadius randsHalf < 8) ∧
      (particleStep oracleA [] 1 randsHalf ⟨13, 0, 0⟩ Vec3.zero).2 =
        ⟨-(oracleA.sin (respawnAngle oracleA randsHalf)) *
            oracleA.sqrt ((1 / 10) / max (1 / 2) (respawnRadius randsHalf)), 0,
          oracleA.cos (respawnAngle oracleA randsHalf) *
            oracleA.sqrt ((1 / 10) / max (1 / 2) (respawnRadius randsHalf))⟩ ∧
      (∀ (ps : List (Vec3 × Vec3)) (rs : ℕ → FrameRandoms) (i : ℕ),
        (updateLoop oracleA [] 1 rs 0 ps).get? i =
          (ps.get? i).map (fun p => particleStep oracleA [] 1 (rs i) p.1 p.2)) :=
  boundary_respawn_band oracleA [] 1 randsHalf ⟨13, 0, 0⟩ Vec3.zero
    (by norm_num [oracleA]) (by norm_num [randsHalf]) (by norm_num [randsHalf])
    (by norm_num [oracleA])

/-! ### C7 — central-gravity loop (first GalaxySimulation variant)

Source: the 50000-particle GalaxySimulation useFrame body (lines 124-153
of the concatenated component file): position += velocity, then
distanceFromCenter = sqrt(x^2 + y^2 + z^2),
gravitationalForce = 0.00001 / max(0.1, distanceFromCenter^2), and
velocity -= (component / distanceFromCenter) * gravitationalForce.  The
max(0.1, _) floor guards only the force-magnitude denominator; the
direction normalization divides by the raw distanceFromCenter.  In
JavaScript, when distanceFromCenter = 0 that division yields NaN (0/0)
or +-Infinity, so the step is modelled as returning none in that case
and some (position, velocity) otherwise. -/

/-- One particle of one frame of the central-gravity useFrame loop.
Returns none exactly when the unguarded divisor distanceFromCenter is
zero, where JavaScript produces non-finite velocity components. -/
def centralGravityStep (M : MathOracle) (pos vel : Vec3) : Option (Vec3 × Vec3) :=
  let newPos := pos.add vel
  let distanceFromCenter := M.sqrt (newPos.dot newPos)
  let gravitationalForce :=
    (1 / 100000) / max (1 / 10) (distanceFromCenter * distanceFromCenter)
  if distanceFromCenter = 0 then none
  else
    some (newPos,
      ⟨vel.x - newPos.x / distanceFromCenter * gravitationalForce,
        vel.y - newPos.y / distanceFromCenter * gravitationalForce,
        vel.z - newPos.z / distanceFromCenter * gravitationalForce⟩)

/-- C7 is violated by the code: the valid (all-finite) particle at the
exact center, position (0,0,0) with velocity (0,0,0), drives the
unguarded division component / distanceFromCenter with divisor 0 —
strictly below the 0.1 floor the claim requires of every
distance-divisor — so a single frame produces non-finite velocity
components (0/0 = NaN in JavaScript). -/
theorem central_gravity_unguarded_division :
    centralGravityStep oracleA Vec3.zero Vec3.zero = none ∧
      oracleA.sqrt ((Vec3.zero.add Vec3.zero).dot (Vec3.zero.add Vec3.zero)) = 0 ∧
      ¬ ((1 : ℚ) / 10 ≤ oracleA.sqrt ((Vec3.zero.add Vec3.zero).dot (Vec3.zero.add Vec3.zero))) := by
  refine ⟨?_, ?_, ?_⟩
  · norm_num [centralGravityStep, oracleA, Vec3.add, Vec3.dot, Vec3.zero]
  · norm_num [oracleA, Vec3.add, Vec3.dot, Vec3.zero]
  · norm_num [oracleA, Vec3.add, Vec3.dot, Vec3.zero]

/-! ### GPU compute shader (galaxyShaders computeShader)

Constants from the shader source: STAR_INFLUENCE_RADIUS = 5.0,
MAX_STARS_PER_PARTICLE = 3.0, DAMPING = 0.99, G = 6.67430e-3.  The
uStarPositionTexture lookup texture2D(uStarPositionTexture, searchUv)
with searchUv = (gridPos + offset + 0.5) / uTextureSize is abstracted as
a texel function from the searched grid cell, since the claims concern
the accumulation semantics of the looked-up texels. -/

def STAR_INFLUENCE_RADIUS : ℚ := 5

def MAX_STARS_PER_PARTICLE : ℚ := 3

def DAMPING : ℚ := 99 / 100

def G : ℚ := 66743 / 10000000

/-- The decoded per-texel particle of the compute shader. -/
structure ParticleData where
  position : Vec3
  velocity : Vec3
  mass : ℚ
  isStar : Bool
deriving DecidableEq

/-- loadParticle: decode position, velocity, star flag and mass from the
two input texels (shares the C1 decoders, which are transcribed from the
same shader lines). -/
def loadParticle (posData velData : Vec4) : ParticleData :=
  { position := posData.xyz
    velocity := velData.xyz
    isStar := loadIsStar posData.w
    mass := loadMass posData.w }

/-- calculateGravitationalForce from the shader:
G * mass1 * mass2 * delta / (r2 * r) with r = length(delta) and the
softening r2 = r * r + 0.1. -/
def calculateGravitationalForce (M : MathOracle) (pos1 : Vec3) (mass1 : ℚ)
    (pos2 : Vec3) (mass2 : ℚ) : Vec3 :=
  let delta := pos2.sub pos1
  let r := M.sqrt (delta.dot delta)
  let r2 := r * r + 1 / 10
  Vec3.smul (G * mass1 * mass2 / (r2 * r)) delta

/-- calculateOrbitalVelocity from the shader: the normalized cross
product of the direction to the star with the vertical axis, scaled by
sqrt(G * centerMass / r).  GLSL normalize(v) = v / length(v). -/
def calculateOrbitalVelocity (M : MathOracle) (pos centerPos : Vec3) (centerMass : ℚ) : Vec3 :=
  let toCenter := centerPos.sub pos
  let r := M.sqrt (toCenter.dot toCenter)
  let c := toCenter.cross ⟨0, 1, 0⟩
  let right := Vec3.smul (1 / M.sqrt (c.dot c)) c
  Vec3.smul (M.sqrt (G * centerMass / r)) right

/-- The quadratic falloff weight (1 - dist / STAR_INFLUENCE_RADIUS)^2. -/
def influenceWeight (dist : ℚ) : ℚ :=
  (1 - dist / STAR_INFLUENCE_RADIUS) * (1 - dist / STAR_INFLUENCE_RADIUS)

/-- The accumulator of the grid scan.  The fields totalForce,
totalOrbitalVel and totalInfluence are the shader variables of the same
names; contributors counts accumulation events — it is observational
instrumentation that no computed field and no control decision reads
(the loop break tests totalInfluence, exactly as in the shader). -/
structure Accum where
  totalForce : Vec3
  totalOrbitalVel : Vec3
  totalInfluence : ℚ
  contributors : ℕ
deriving DecidableEq

def initAccum : Accum := ⟨Vec3.zero, Vec3.zero, 0, 0⟩

/-- The body of one grid-cell iteration of the shader loop: if the
looked-up texel is a star (w > 0.5) and strictly within the influence
radius, accumulate the influence-weighted gravitational force and
orbital velocity and the influence weight itself; otherwise leave the
accumulator unchanged. -/
def processCell (M : MathOracle) (p : ParticleData) (starPosData : Vec4)
    (acc : Accum) : Accum :=
  if starPosData.w > 1 / 2 then
    let starPos := starPosData.xyz
    let starMass := (starPosData.w - 1) * 1000
    let toStar := starPos.sub p.position
    let dist := M.sqrt (toStar.dot toStar)
    if dist < STAR_INFLUENCE_RADIUS then
      ⟨acc.totalForce.add (Vec3.smul (influenceWeight dist)
          (calculateGravitationalForce M p.position p.mass starPos starMass)),
        acc.totalOrbitalVel.add (Vec3.smul (influenceWeight dist)
          (calculateOrbitalVelocity M p.position starPos starMass)),
        acc.totalInfluence + influenceWeight dist,
        acc.contributors + 1⟩
    else acc
  else acc

/-- The cell offsets (dx, dy) in shader loop order: dy is the outer
loop, dx the inner, each from -1 to 1. -/
def neighborOffsets : List (ℤ × ℤ) :=
  [(-1, -1), (0, -1), (1, -1), (-1, 0), (0, 0), (1, 0), (-1, 1), (0, 1), (1, 1)]

/-- The containing grid cell floor(position.xz / STAR_INFLUENCE_RADIUS). -/
def gridPos (pos : Vec3) : ℤ × ℤ :=
  (Int.floor (pos.x / STAR_INFLUENCE_RADIUS), Int.floor (pos.z / STAR_INFLUENCE_RADIUS))

/-- The 3x3 grid scan with the shader break semantics: after each cell
(inner break, then outer break) the loop stops as soon as
totalInfluence has reached MAX_STARS_PER_PARTICLE. -/
def scanCells (M : MathOracle) (starTex : ℤ → ℤ → Vec4) (p : ParticleData) :
    List (ℤ × ℤ) → Accum → Accum
  | [], acc => acc
  | c :: cs, acc =>
    let acc2 := processCell M p
      (starTex ((gridPos p.position).1 + c.1) ((gridPos p.position).2 + c.2)) acc
    if acc2.totalInfluence ≥ MAX_STARS_PER_PARTICLE then acc2
    else scanCells M starTex p cs acc2

/-- The post-scan velocity update of the non-star branch: when
totalInfluence > 0, divide the accumulated force and orbital velocity by
totalInfluence, mix the current velocity toward the averaged orbital
velocity by uOrbitalStrength * uDeltaTime (GLSL
mix(x, y, a) = x * (1 - a) + y * a), add the averaged force divided by
the particle mass and scaled by uGravityStrength * uDeltaTime, and damp
by DAMPING; with no influence the velocity is unchanged. -/
def ambientVelocity (uOrbitalStrength uGravityStrength uDeltaTime : ℚ)
    (p : ParticleData) (acc : Accum) : Vec3 :=
  if acc.totalInfluence > 0 then
    let totalForce := Vec3.smul (1 / acc.totalInfluence) acc.totalForce
    let totalOrbitalVel := Vec3.smul (1 / acc.totalInfluence) acc.totalOrbitalVel
    let newVel := (Vec3.smul (1 - uOrbitalStrength * uDeltaTime) p.velocity).add
      (Vec3.smul (uOrbitalStrength * uDeltaTime) totalOrbitalVel)
    let newVel2 := newVel.add (Vec3.smul (uGravityStrength * uDeltaTime / p.mass) totalForce)
    Vec3.smul DAMPING newVel2
  else p.velocity

/-- The new position of the non-star branch: integrate by the (possibly
updated) velocity, then apply the hard radial clamp at radius 20
(normalize(position) * 20; the accompanying velocity halving affects
only a local that the fragment output discards). -/
def ambientNewPosition (M : MathOracle) (starTex : ℤ → ℤ → Vec4)
    (g o dt : ℚ) (p : ParticleData) : Vec3 :=
  let acc := scanCells M starTex p neighborOffsets initAccum
  let vel := ambientVelocity o g dt p acc
  let pos1 := p.position.add (Vec3.smul dt vel)
  let dist := M.sqrt (pos1.dot pos1)
  if dist > 20 then Vec3.smul 20 (Vec3.smul (1 / dist) pos1) else pos1

/-- The non-star branch of the shader main: the single fragment output
vec4(particle.position, 0.0). -/
def ambientBranch (M : MathOracle) (starTex : ℤ → ℤ → Vec4)
    (g o dt : ℚ) (p : ParticleData) : Vec4 :=
  let np := ambientNewPosition M starTex g o dt p
  ⟨np.x, np.y, np.z, 0⟩

/-- The star branch of the shader main: advance the angle by
orbitalSpeed(radius) * dt on the circle of the current xz radius, settle
y toward the plane by 0.998, and re-emit the discriminant
mass / 1000 + 1. -/
def starBranch (M : MathOracle) (dt : ℚ) (p : ParticleData) : Vec4 :=
  let angle := M.atan2 p.position.z p.position.x
  let radius := M.sqrt (p.position.x * p.position.x + p.position.z * p.position.z)
  let orbitalSpeed := (1 / 20) / M.sqrt (max (1 / 10) radius)
  let angle2 := angle + orbitalSpeed * dt
  ⟨M.cos angle2 * radius, p.position.y * (998 / 1000), M.sin angle2 * radius,
    p.mass / 1000 + 1⟩

/-- The shader main: one output texel computed from the two input
texels. -/
def computeShaderMain (M : MathOracle) (starTex : ℤ → ℤ → Vec4)
    (g o dt : ℚ) (posData velData : Vec4) : Vec4 :=
  let particle := loadParticle posData velData
  if particle.isStar then starBranch M dt particle
  else ambientBranch M starTex g o dt particle

/-- The concrete oracle for the shader evaluations: square root exact on
25/4 (distance 5/2) and 1600 (distance 40), zero elsewhere; the
trigonometric values are irrelevant to the evaluated accumulator
fields. -/
def oracleC : MathOracle where
  sqrt := fun q => if q = 25 / 4 then 5 / 2 else if q = 1600 then 40 else 0
  sin := fun _ => 0
  cos := fun _ => 1
  atan2 := fun _ _ => 0
  pi := 0

/-- A star texture holding four stars of mass 100 (discriminant 1.1),
each at distance 5/2 from the origin, in the first four scanned cells of
the 3x3 neighborhood of the origin cell; all other cells are empty. -/
def starTexB : ℤ → ℤ → Vec4 := fun i j =>
  if i = -1 ∧ j = -1 then ⟨5 / 2, 0, 0, 11 / 10⟩
  else if i = 0 ∧ j = -1 then ⟨-(5 / 2), 0, 0, 11 / 10⟩
  else if i = 1 ∧ j = -1 then ⟨0, 0, 5 / 2, 11 / 10⟩
  else if i = -1 ∧ j = 0 then ⟨0, 0, -(5 / 2), 11 / 10⟩
  else ⟨0, 0, 0, 0⟩

/-- The ambient particle texel at the origin. -/
def particleB : ParticleData := loadParticle ⟨0, 0, 0, 0⟩ ⟨0, 0, 0, 0⟩

/-- Counterexample to C3 as stated: scanning the neighborhood of
particleB against starTexB accumulates four contributing stars — the
claimed cap of 3 contributors does not stop the loop, because the
shader compares the accumulated influence WEIGHT (here four times
(1 - (5/2)/5)^2 = 1/4, total 1.0) against MAX_STARS_PER_PARTICLE = 3.0,
not the contributor count. -/
theorem shader_cap_counts_weight_not_contributors :
    (scanCells oracleC starTexB particleB neighborOffsets initAccum).contributors = 4 ∧
      (scanCells oracleC starTexB particleB neighborOffsets initAccum).totalInfluence = 1 ∧
      (4 : ℕ) > 3 := by
  refine ⟨?_, ?_, by norm_num⟩ <;>
    norm_num [scanCells, neighborOffsets, processCell, particleB, loadParticle, loadIsStar,
      loadMass, initAccum, gridPos, starTexB, oracleC, STAR_INFLUENCE_RADIUS,
      MAX_STARS_PER_PARTICLE, influenceWeight, Vec4.xyz, Vec3.sub, Vec3.dot, Vec3.zero]

/-- C3 amended: in the per-frame compute pass for an ambient texel,
(i) a looked-up texel that is not a star (w not above 0.5) contributes
nothing; (ii) a star at distance not strictly below the influence
radius 5.0 contributes nothing; (iii) a star strictly within the radius
contributes its force and ideal tangential orbital velocity, each
weighted by the quadratic falloff (1 - dist/5)^2, and adds that weight
to the running total; (iv) the scan stops as soon as the accumulated
influence WEIGHT reaches MAX_STARS_PER_PARTICLE = 3.0 (the corrected
stop rule: a weight threshold, not a contributor count); and (v) when
the total influence is positive, the accumulated force and orbital
velocity are each divided by it before use in the velocity update. -/
theorem shader_influence_accumulation (M : MathOracle) (starTex : ℤ → ℤ → Vec4)
    (g o dt : ℚ) (p : ParticleData) (s : Vec4) (acc : Accum) :
    (s.w ≤ 1 / 2 → processCell M p s acc = acc) ∧
    (STAR_INFLUENCE_RADIUS ≤ M.sqrt ((s.xyz.sub p.position).dot (s.xyz.sub p.position)) →
      processCell M p s acc = acc) ∧
    (1 / 2 < s.w →
      M.sqrt ((s.xyz.sub p.position).dot (s.xyz.sub p.position)) < STAR_INFLUENCE_RADIUS →
      processCell M p s acc =
        ⟨acc.totalForce.add (Vec3.smul
            (influenceWeight (M.sqrt ((s.xyz.sub p.position).dot (s.xyz.sub p.position))))
            (calculateGravitationalForce M p.position p.mass s.xyz ((s.w - 1) * 1000))),
          acc.totalOrbitalVel.add (Vec3.smul
            (influenceWeight (M.sqrt ((s.xyz.sub p.position).dot (s.xyz.sub p.position))))
            (calculateOrbitalVelocity M p.position s.xyz ((s.w - 1) * 1000))),
          acc.totalInfluence +
            influenceWeight (M.sqrt ((s.xyz.sub p.position).dot (s.xyz.sub p.position))),
          acc.contributors + 1⟩) ∧
    (∀ (cells : List (ℤ × ℤ)) (c : ℤ × ℤ) (a : Accum),
      (processCell M p
          (starTex ((gridPos p.position).1 + c.1) ((gridPos p.position).2 + c.2))
          a).totalInfluence ≥ MAX_STARS_PER_PARTICLE →
      scanCells M starTex p (c :: cells) a =
        processCell M p
          (starTex ((gridPos p.position).1 + c.1) ((gridPos p.position).2 + c.2)) a) ∧
    (0 < acc.totalInfluence →
      ambientVelocity o g dt p acc =
        Vec3.smul DAMPING
          (((Vec3.smul (1 - o * dt) p.velocity).add
              (Vec3.smul (o * dt) (Vec3.smul (1 / acc.totalInfluence) acc.totalOrbitalVel))).add
            (Vec3.smul (g * dt / p.mass) (Vec3.smul (1 / acc.totalInfluence) acc.totalForce)))) := by
  refine ⟨?_, ?_, ?_, ?_, ?_⟩
  · intro hw
    rw [processCell, if_neg (not_lt.mpr hw)]
  · intro hfar
    rw [processCell]
    by_cases hw : s.w > 1 / 2
    · rw [if_pos hw, if_neg (not_lt.mpr hfar)]
    · rw [if_neg hw]
  · intro hw hnear
    rw [processCell, if_pos hw, if_pos hnear]
  · intro cells c a hstop
    rw [scanCells, if_pos hstop]
  · intro hpos
    rw [ambientVelocity, if_pos hpos]

/-- Witness for the amended C3, applying the theorem at concrete texels
of the starTexB configuration: an empty texel (w = 0), a star at
distance 40 (outside the radius), a star at distance 5/2 (inside, with
weight 1/4), a stop at an accumulator whose influence already reached 3,
and the averaging at that same accumulator. -/
theorem shader_influence_accumulation_witness :
    processCell oracleC particleB ⟨0, 0, 0, 0⟩ initAccum = initAccum ∧
    processCell oracleC particleB ⟨40, 0, 0, 11 / 10⟩ initAccum = initAccum ∧
    processCell oracleC particleB ⟨5 / 2, 0, 0, 11 / 10⟩ initAccum =
      ⟨initAccum.totalForce.add (Vec3.smul
          (influenceWeight (oracleC.sqrt (((Vec4.xyz ⟨5 / 2, 0, 0, 11 / 10⟩).sub
            particleB.position).dot ((Vec4.xyz ⟨5 / 2, 0, 0, 11 / 10⟩).sub particleB.position))))
          (calculateGravitationalForce oracleC particleB.position particleB.mass
            (Vec4.xyz ⟨5 / 2, 0, 0, 11 / 10⟩) ((11 / 10 - 1) * 1000))),
        initAccum.totalOrbitalVel.add (Vec3.smul
          (influenceWeight (oracleC.sqrt (((Vec4.xyz ⟨5 / 2, 0, 0, 11 / 10⟩).sub
            particleB.position).dot ((Vec4.xyz ⟨5 / 2, 0, 0, 11 / 10⟩).sub particleB.position))))
          (calculateOrbitalVelocity oracleC particleB.position
            (Vec4.xyz ⟨5 / 2, 0, 0, 11 / 10⟩) ((11 / 10 - 1) * 1000))),
        initAccum.totalInfluence +
          influenceWeight (oracleC.sqrt (((Vec4.xyz ⟨5 / 2, 0, 0, 11 / 10⟩).sub
            particleB.position).dot ((Vec4.xyz ⟨5 / 2, 0, 0, 11 / 10⟩).sub particleB.position))),
        initAccum.contributors + 1⟩ ∧
    scanCells oracleC starTexB particleB ([(0, 1), (1, 1)] : List (ℤ × ℤ))
        ⟨Vec3.zero, Vec3.zero, 3, 0⟩ =
      processCell oracleC particleB
        (starTexB ((gridPos particleB.position).1 + 0) ((gridPos particleB.position).2 + 1))
        ⟨Vec3.zero, Vec3.zero, 3, 0⟩ ∧
    ambientVelocity 1 (1 / 2) (16 / 1000) particleB ⟨Vec3.zero, Vec3.zero, 3, 0⟩ =
      Vec3.smul DAMPING
        (((Vec3.smul (1 - 1 * (16 / 1000)) particleB.velocity).add
            (Vec3.smul (1 * (16 / 1000)) (Vec3.smul (1 / (3 : ℚ)) Vec3.zero))).add
          (Vec3.smul ((1 / 2) * (16 / 1000) / particleB.mass)
            (Vec3.smul (1 / (3 : ℚ)) Vec3.zero))) := by
  refine ⟨?_, ?_, ?_, ?_, ?_⟩
  · exact (shader_influence_accumulation oracleC starTexB 1 1 1 particleB ⟨0, 0, 0, 0⟩
      initAccum).1 (by norm_num)
  · exact (shader_influence_accumulation oracleC starTexB 1 1 1 particleB
      ⟨40, 0, 0, 11 / 10⟩ initAccum).2.1
      (by norm_num [oracleC, Vec4.xyz, Vec3.sub, Vec3.dot, particleB, loadParticle,
        STAR_INFLUENCE_RADIUS])
  · exact (shader_influence_accumulation oracleC starTexB 1 1 1 particleB
      ⟨5 / 2, 0, 0, 11 / 10⟩ initAccum).2.2.1 (by norm_num)
      (by norm_num [oracleC, Vec4.xyz, Vec3.sub, Vec3.dot, particleB, loadParticle,
        STAR_INFLUENCE_RADIUS])
  · exact (shader_influence_accumulation oracleC starTexB 1 1 1 particleB
      ⟨0, 0, 0, 0⟩ initAccum).2.2.2.1 [(1, 1)] (0, 1) ⟨Vec3.zero, Vec3.zero, 3, 0⟩
      (by norm_num [processCell, starTexB, gridPos, particleB, loadParticle, Vec4.xyz,
        Vec3.sub, Vec3.dot, Vec3.zero, STAR_INFLUENCE_RADIUS, MAX_STARS_PER_PARTICLE,
        influenceWeight])
  · exact (shader_influence_accumulation oracleC starTexB (1 / 2) 1 (16 / 1000) particleB
      ⟨0, 0, 0, 0⟩ ⟨Vec3.zero, Vec3.zero, 3, 0⟩).2.2.2.2 (by norm_num)

/-! ### GPU engine double buffering (GPUParticleSystem, LandingPage.tsx)

State: two position render targets and two velocity render targets (each
a texel-indexed texture), the current read indices (both start at 0 in
the constructor), the static star position texture and the two live
uniforms.  update binds the current-read position and velocity textures
as compute inputs, renders the SAME compute mesh into the position
target at index 1 - currentPositionIndex and then into the velocity
target at index 1 - currentVelocityIndex, swaps both indices, and points
the render material at the new current position target. -/

/-- A pair of render targets indexed 0 / 1, one field per texture. -/
structure RenderTargetPair where
  rt0 : ℕ → Vec4
  rt1 : ℕ → Vec4

/-- Array indexing targets[i]; only indices 0 and 1 occur. -/
def RenderTargetPair.get (p : RenderTargetPair) (i : ℕ) : ℕ → Vec4 :=
  if i = 0 then p.rt0 else p.rt1

/-- Overwriting targets[i] with the rendered texture f. -/
def RenderTargetPair.put (p : RenderTargetPair) (i : ℕ) (f : ℕ → Vec4) : RenderTargetPair :=
  if i = 0 then { p with rt0 := f } else { p with rt1 := f }

lemma RenderTargetPair.get_put_same (p : RenderTargetPair) (i : ℕ) (f : ℕ → Vec4) :
    (p.put i f).get i = f := by
  by_cases h : i = 0 <;> simp [RenderTargetPair.get, RenderTargetPair.put, h]

/-- The GPUParticleSystem state that the per-frame update touches. -/
structure GPUParticleSystem where
  positionTargets : RenderTargetPair
  velocityTargets : RenderTargetPair
  currentPositionIndex : ℕ
  currentVelocityIndex : ℕ
  starPositionTexture : ℤ → ℤ → Vec4
  uGravityStrength : ℚ
  uOrbitalStrength : ℚ

/-- GPUParticleSystem.update: read textures at the current indices, run
the compute pass (one shader output per texel) into BOTH write targets
at the complementary indices, then swap both indices.  The render
material afterwards samples positionTargets[currentPositionIndex] of the
new state. -/
def GPUParticleSystem.update (M : MathOracle) (deltaTime : ℚ)
    (s : GPUParticleSystem) : GPUParticleSystem :=
  let readPos := s.positionTargets.get s.currentPositionIndex
  let readVel := s.velocityTargets.get s.currentVelocityIndex
  let out : ℕ → Vec4 := fun texel =>
    computeShaderMain M s.starPositionTexture s.uGravityStrength s.uOrbitalStrength
      deltaTime (readPos texel) (readVel texel)
  { s with
    positionTargets := s.positionTargets.put (1 - s.currentPositionIndex) out
    velocityTargets := s.velocityTargets.put (1 - s.currentVelocityIndex) out
    currentPositionIndex := 1 - s.currentPositionIndex
    currentVelocityIndex := 1 - s.currentVelocityIndex }

/-- A sequence of frames: runFrames M dts s n is the state after n
update calls, frame k using the frame delta dts k. -/
def runFrames (M : MathOracle) (dts : ℕ → ℚ) (s : GPUParticleSystem) : ℕ → GPUParticleSystem
  | 0 => s
  | n + 1 => (runFrames M dts s n).update M (dts n)

/-- C2: starting from the constructor state (both indices 0, or any
indices in {0, 1}), every pass n reads the textures at the current
indices and writes the shader output to the targets at the
complementary indices 1 - current (the content equation below), both
indices stay in {0, 1} and swap exactly once per pass, no pass reads
and writes the same render target, and the render-read index after a
pass (the new current position index) differs from the index any
subsequent pass writes. -/
theorem double_buffer_non_aliasing (M : MathOracle) (dts : ℕ → ℚ) (s : GPUParticleSystem)
    (hp : s.currentPositionIndex ≤ 1) (hv : s.currentVelocityIndex ≤ 1) (n : ℕ) :
    ((runFrames M dts s n).currentPositionIndex ≤ 1 ∧
      (runFrames M dts s n).currentVelocityIndex ≤ 1) ∧
    ((runFrames M dts s (n + 1)).currentPositionIndex =
        1 - (runFrames M dts s n).currentPositionIndex ∧
      (runFrames M dts s (n + 1)).currentVelocityIndex =
        1 - (runFrames M dts s n).currentVelocityIndex) ∧
    (1 - (runFrames M dts s n).currentPositionIndex ≠
        (runFrames M dts s n).currentPositionIndex ∧
      1 - (runFrames M dts s n).currentVelocityIndex ≠
        (runFrames M dts s n).currentVelocityIndex) ∧
    (∀ texel,
      (runFrames M dts s (n + 1)).positionTargets.get
          (1 - (runFrames M dts s n).currentPositionIndex) texel =
        computeShaderMain M (runFrames M dts s n).starPositionTexture
          (runFrames M dts s n).uGravityStrength (runFrames M dts s n).uOrbitalStrength
          (dts n)
          ((runFrames M dts s n).positionTargets.get
            (runFrames M dts s n).currentPositionIndex texel)
          ((runFrames M dts s n).velocityTargets.get
            (runFrames M dts s n).currentVelocityIndex texel)) ∧
    ((runFrames M dts s (n + 1)).currentPositionIndex ≠
      1 - (runFrames M dts s (n + 1)).currentPositionIndex) := by
  have hidx : ∀ m, (runFrames M dts s m).currentPositionIndex ≤ 1 ∧
      (runFrames M dts s m).currentVelocityIndex ≤ 1 := by
    intro m
    induction m with
    | zero => exact ⟨hp, hv⟩
    | succ k ih =>
      simp only [runFrames, GPUParticleSystem.update]
      omega
  refine ⟨hidx n, ⟨rfl, rfl⟩, ⟨by omega, by omega⟩, ?_, by omega⟩
  intro texel
  show ((runFrames M dts s n).update M (dts n)).positionTargets.get
      (1 - (runFrames M dts s n).currentPositionIndex) texel = _
  rw [GPUParticleSystem.update]
  rw [RenderTargetPair.get_put_same]

/-- The all-zero texture for concrete systems. -/
def texZero : ℕ → Vec4 := fun _ => ⟨0, 0, 0, 0⟩

/-- A concrete GPUParticleSystem in the constructor state: both indices
0, starTexB as the static star texture, and the constructor uniform
values gravityStrength = 0.5, orbitalStrength = 1.0. -/
def systemA : GPUParticleSystem where
  positionTargets := ⟨texZero, texZero⟩
  velocityTargets := ⟨texZero, texZero⟩
  currentPositionIndex := 0
  currentVelocityIndex := 0
  starPositionTexture := starTexB
  uGravityStrength := 1 / 2
  uOrbitalStrength := 1

/-- Witness for C2 at the concrete constructor-state system and frame 1
(so one swap has already happened). -/
theorem double_buffer_non_aliasing_witness :
    ((runFrames oracleC (fun _ => 16 / 1000) systemA 1).currentPositionIndex ≤ 1 ∧
      (runFrames oracleC (fun _ => 16 / 1000) systemA 1).currentVelocityIndex ≤ 1) ∧
    ((runFrames oracleC (fun _ => 16 / 1000) systemA 2).currentPositionIndex =
        1 - (runFrames oracleC (fun _ => 16 / 1000) systemA 1).currentPositionIndex ∧
      (runFrames oracleC (fun _ => 16 / 1000) systemA 2).currentVelocityIndex =
        1 - (runFrames oracleC (fun _ => 16 / 1000) systemA 1).currentVelocityIndex) ∧
    (1 - (runFrames oracleC (fun _ => 16 / 1000) systemA 1).currentPositionIndex ≠
        (runFrames oracleC (fun _ => 16 / 1000) systemA 1).currentPositionIndex ∧
      1 - (runFrames oracleC (fun _ => 16 / 1000) systemA 1).currentVelocityIndex ≠
        (runFrames oracleC (fun _ => 16 / 1000) systemA 1).currentVelocityIndex) ∧
    (∀ texel,
      (runFrames oracleC (fun _ => 16 / 1000) systemA 2).positionTargets.get
          (1 - (runFrames oracleC (fun _ => 16 / 1000) systemA 1).currentPositionIndex) texel =
        computeShaderMain oracleC
          (runFrames oracleC (fun _ => 16 / 1000) systemA 1).starPositionTexture
          (runFrames oracleC (fun _ => 16 / 1000) systemA 1).uGravityStrength
          (runFrames oracleC (fun _ => 16 / 1000) systemA 1).uOrbitalStrength (16 / 1000)
          ((runFrames oracleC (fun _ => 16 / 1000) systemA 1).positionTargets.get
            (runFrames oracleC (fun _ => 16 / 1000) systemA 1).currentPositionIndex texel)
          ((runFrames oracleC (fun _ => 16 / 1000) systemA 1).velocityTargets.get
            (runFrames oracleC (fun _ => 16 / 1000) systemA 1).currentVelocityIndex texel)) ∧
    ((runFrames oracleC (fun _ => 16 / 1000) systemA 2).currentPositionIndex ≠
      1 - (runFrames oracleC (fun _ => 16 / 1000) systemA 2).currentPositionIndex) :=
  double_buffer_non_aliasing oracleC (fun _ => 16 / 1000) systemA
    (by norm_num [systemA]) (by norm_num [systemA]) 1

/-- C10: after every update the newly written (and now current) velocity
render target holds, texel for texel, exactly the data of the newly
written position render target — the same compute mesh with its single
fragment output is rendered into both — namely the shader output
computed from the pre-update read textures; and for a texel decoded as
an ambient particle that common value is vec4(newPosition, 0.0): the
integrated POSITION with discriminant 0, not a velocity.  So after the
first update the velocity texture holds position data. -/
theorem velocity_target_holds_position_data (M : MathOracle) (dt : ℚ)
    (s : GPUParticleSystem) (texel : ℕ) :
    ((s.update M dt).velocityTargets.get (s.update M dt).currentVelocityIndex texel =
        (s.update M dt).positionTargets.get (s.update M dt).currentPositionIndex texel) ∧
    ((s.update M dt).velocityTargets.get (s.update M dt).currentVelocityIndex texel =
        computeShaderMain M s.starPositionTexture s.uGravityStrength s.uOrbitalStrength dt
          (s.positionTargets.get s.currentPositionIndex texel)
          (s.velocityTargets.get s.currentVelocityIndex texel)) ∧
    (loadIsStar (s.positionTargets.get s.currentPositionIndex texel).w = false →
      (s.update M dt).velocityTargets.get (s.update M dt).currentVelocityIndex texel =
        ambientBranch M s.starPositionTexture s.uGravityStrength s.uOrbitalStrength dt
          (loadParticle (s.positionTargets.get s.currentPositionIndex texel)
            (s.velocityTargets.get s.currentVelocityIndex texel)) ∧
      ((s.update M dt).velocityTargets.get
          (s.update M dt).currentVelocityIndex texel).w = 0 ∧
      ((s.update M dt).velocityTargets.get
          (s.update M dt).currentVelocityIndex texel).xyz =
        ambientNewPosition M s.starPositionTexture s.uGravityStrength s.uOrbitalStrength dt
          (loadParticle (s.positionTargets.get s.currentPositionIndex texel)
            (s.velocityTargets.get s.currentVelocityIndex texel))) := by
  have hvel : (s.update M dt).velocityTargets.get (s.update M dt).currentVelocityIndex texel =
      computeShaderMain M s.starPositionTexture s.uGravityStrength s.uOrbitalStrength dt
        (s.positionTargets.get s.currentPositionIndex texel)
        (s.velocityTargets.get s.currentVelocityIndex texel) := by
    show ((s.update M dt).velocityTargets.get (s.update M dt).currentVelocityIndex) texel = _
    rw [GPUParticleSystem.update]
    rw [RenderTargetPair.get_put_same]
  have hpos : (s.update M dt).positionTargets.get (s.update M dt).currentPositionIndex texel =
      computeShaderMain M s.starPositionTexture s.uGravityStrength s.uOrbitalStrength dt
        (s.positionTargets.get s.currentPositionIndex texel)
        (s.velocityTargets.get s.currentVelocityIndex texel) := by
    show ((s.update M dt).positionTargets.get (s.update M dt).currentPositionIndex) texel = _
    rw [GPUParticleSystem.update]
    rw [RenderTargetPair.get_put_same]
  refine ⟨hvel.trans hpos.symm, hvel, ?_⟩
  intro hns
  have hmain : computeShaderMain M s.starPositionTexture s.uGravityStrength
      s.uOrbitalStrength dt (s.positionTargets.get s.currentPositionIndex texel)
      (s.velocityTargets.get s.currentVelocityIndex texel) =
      ambientBranch M s.starPositionTexture s.uGravityStrength s.uOrbitalStrength dt
        (loadParticle (s.positionTargets.get s.currentPositionIndex texel)
          (s.velocityTargets.get s.currentVelocityIndex texel)) := by
    rw [computeShaderMain]
    have : (loadParticle (s.positionTargets.get s.currentPositionIndex texel)
        (s.velocityTargets.get s.currentVelocityIndex texel)).isStar = false := hns
    rw [this]
    simp only [Bool.false_eq_true, if_false]
  refine ⟨hvel.trans hmain, ?_, ?_⟩
  · rw [hvel, hmain, ambientBranch]
  · rw [hvel, hmain, ambientBranch, Vec4.xyz]

/-- Witness for C10 at the concrete system systemA and texel 0, whose
position texel decodes as an ambient particle. -/
theorem velocity_target_holds_position_data_witness :
    ((systemA.update oracleC (16 / 1000)).velocityTargets.get
        (systemA.update oracleC (16 / 1000)).currentVelocityIndex 0 =
      (systemA.update oracleC (16 / 1000)).positionTargets.get
        (systemA.update oracleC (16 / 1000)).currentPositionIndex 0) ∧
    ((systemA.update oracleC (16 / 1000)).velocityTargets.get
        (systemA.update oracleC (16 / 1000)).currentVelocityIndex 0).w = 0 :=
  ⟨(velocity_target_holds_position_data oracleC (16 / 1000) systemA 0).1,
    (((velocity_target_holds_position_data oracleC (16 / 1000) systemA 0).2.2
      (by norm_num [systemA, RenderTargetPair.get, texZero, loadIsStar])).2.1)⟩

end JamesWebbLive
